import Mathlib

/-!
Verification of the hawiah-local driver core (JSON and YAML file drivers).

The TypeScript sources are embedded shallowly:
* JS values that can appear in a record are the inductive `Value`
  (null / boolean / number / string / array / object); JS objects are
  ordered association lists `List (String × Value)` — insertion order is
  observable in JS and in both serializers, so the list order models it.
* JS object-literal spread `{...a, ...b}` is `objMerge`, and writing a
  single property (`{...a, k: v}`) is `setKey`: an existing key keeps its
  position and gets the new value, a fresh key is appended.
* Each driver class becomes a `State` structure plus one Lean function per
  method.  Methods are synchronous state transformers; a method returns a
  `DriverOut`: the JS return value (or the thrown error) in `ret`, the
  updated instance state in `state`, and the list of snapshots handed to
  the atomic file writer (`writer.write`) in `saves`.
* The clock (`new Date().toISOString()`) and the random id generator are
  passed in as explicit `now` / `fresh` arguments.
* File contents read at `connect`/`reload` are abstracted to the outcome
  of the external codec: absent file (`Option.none`), malformed text, or a
  successfully decoded shape (`FileContent`).
-/

/-- A JS value storable in a record: the tagged union of §3 of the design
(null, boolean, number, string, ordered list, string-keyed mapping).
Numbers are modelled as integers; no claim depends on float behaviour. -/
inductive Value where
  | null
  | bool (b : Bool)
  | num (n : Int)
  | str (s : String)
  | list (items : List Value)
  | map (fields : List (String × Value))
  deriving Repr

/-- A JS object: ordered association list from keys to values. -/
abbrev Data := List (String × Value)

mutual
/-- Structural equality of values.  On this model it coincides with the
`JSON.stringify(a) === JSON.stringify(b)` comparison the sources use
(serialization preserves order of list items and of object keys). -/
def Value.beq : Value → Value → Bool
  | .null, .null => true
  | .bool a, .bool b => a == b
  | .num a, .num b => a == b
  | .str a, .str b => a == b
  | .list as, .list bs => beqList as bs
  | .map as, .map bs => beqPairs as bs
  | _, _ => false

/-- Element-wise equality of two value lists. -/
def beqList : List Value → List Value → Bool
  | [], [] => true
  | a :: as, b :: bs => Value.beq a b && beqList as bs
  | _, _ => false

/-- Pairwise equality of two objects: same keys in the same order with
equal values. -/
def beqPairs : Data → Data → Bool
  | [], [] => true
  | (k, v) :: as, (k2, v2) :: bs => k == k2 && Value.beq v v2 && beqPairs as bs
  | _, _ => false
end

/-- JS property read `obj[k]`: the value at the first occurrence of `k`,
`none` when the key is absent (JS `undefined`). -/
def lookupKey (obj : Data) (k : String) : Option Value :=
  match obj with
  | [] => none
  | (k2, v) :: rest => if k2 = k then some v else lookupKey rest k

/-- Whether the object has the key. -/
def hasKey (obj : Data) (k : String) : Bool :=
  obj.any (fun p => p.1 = k)

/-- JS property write `{...obj, k: v}` / `obj[k] = v`: an existing key
keeps its position and takes the new value, a fresh key is appended. -/
def setKey (obj : Data) (k : String) (v : Value) : Data :=
  if hasKey obj k then
    obj.map (fun p => if p.1 = k then (k, v) else p)
  else
    obj ++ [(k, v)]

/-- JS `delete obj[k]` (used to model a property explicitly set to
`undefined`, which every observer in these drivers treats as absent). -/
def removeKey (obj : Data) (k : String) : Data :=
  obj.filter (fun p => !(p.1 = k))

/-- JS object spread `{...a, ...b}`: properties of `b` written over `a`
one by one, left to right. -/
def objMerge (a b : Data) : Data :=
  b.foldl (fun acc p => setKey acc p.1 p.2) a

/-- JS truthiness of a value (`data._id || generated` in the second JSON
driver variant): null, false, 0 and the empty string are falsy, every
array and object is truthy. -/
def Value.truthy : Value → Bool
  | .null => false
  | .bool b => b
  | .num n => n != 0
  | .str s => s != ""
  | .list _ => true
  | .map _ => true

/-- Errors a driver method can throw: the not-connected guard error and a
propagated decode failure (`SyntaxError` from `JSON.parse`, or the
wrapped `Failed to parse YAML file` error). -/
inductive DbError where
  | notConnected
  | parseError
  deriving Repr, DecidableEq

/-- Decoded top-level shape of a backing file, as produced by the external
codec (`JSON.parse` / `yaml.load`):
* `arr rs` — an array of record objects;
* `recordsObj rs` — a non-array value with a truthy object field
  `records`, whose property values are `rs` (legacy JSON shape);
* `other` — any other successfully decoded value. -/
inductive Parsed where
  | arr (rs : List Data)
  | recordsObj (rs : List Data)
  | other
  deriving Repr

/-- Content of a present backing file: either it decodes to a `Parsed`
shape or the decoder throws. -/
inductive FileContent where
  | ok (p : Parsed)
  | malformed
  deriving Repr

/-- Result of one driver method call: the JS return value or thrown error,
the updated instance state, and the snapshots passed to the atomic file
writer during the call (in order). -/
structure DriverOut (σ : Type) (α : Type) where
  ret : Except DbError α
  state : σ
  saves : List (List Data)

/-!
## The JSON drivers' predicate matcher

`JSONDriver.matches` / `JSONDriver.matchesQuery` (textually identical in
both variants of `JSONDriver.ts`): every top-level query key must match;
an object query value recurses into an object record value (subset
semantics), arrays compare by serialized equality, anything else by `===`
(which on two distinct arrays/objects is reference inequality, but those
pairings are already consumed by the earlier branches or are of different
types, so value inequality models it).  The JS early return on an empty
query is subsumed by `every`/`all` on the empty key list.
-/

mutual
/-- One query key against the record's value at that key (`undefined`
when absent), following the branch order of the source. -/
def matchOne : Value → Option Value → Bool
  | .map qkvs, some (.map rkvs) => matchMap qkvs rkvs
  | .map _, _ => false
  | .list qs, some (.list rs) => beqList qs rs
  | qv, some rv => Value.beq rv qv
  | _, none => false

/-- All query keys against a record ( `Object.keys(query).every(...)` ). -/
def matchMap : Data → Data → Bool
  | [], _ => true
  | (k, qv) :: rest, rkvs => matchOne qv (lookupKey rkvs k) && matchMap rest rkvs
end

/-- `JSONDriver.matches(record, query)` (first variant; the second
variant's `matchesQuery` has the same text).  The method name `matches`
is a Lean keyword, so the function lives at top level as `jsonMatches`
and both variants' operations refer to it. -/
def jsonMatches (record query : Data) : Bool :=
  matchMap query record

/-!
## The reference matcher, from the specification's words

Modelled from the spec (§4.3 Predicate Matcher), used only as the
reference side of the refinement claim about the matcher: empty query
matches; per key, a nested mapping recurses as a subset specification, a
list demands exact order-sensitive element-wise equality against a list
record value, a scalar demands value equality; a missing record field
fails the check.
-/

/-- Exact order-sensitive element-wise equality of two lists (§4.3). -/
def listEqExact : List Value → List Value → Bool
  | [], [] => true
  | a :: as, b :: bs => Value.beq a b && listEqExact as bs
  | _, _ => false

mutual
/-- One query value `qv` against the record value `rv` at the same key
(absent = `none`), by the spec's per-kind rule. -/
def specMatchValue : Value → Option Value → Bool
  | .map qkvs, rv? =>
      match rv? with
      | some (.map rkvs) => specMatches rkvs qkvs
      | _ => false
  | .list qs, rv? =>
      match rv? with
      | some (.list rs) => listEqExact qs rs
      | _ => false
  | qv, rv? =>
      match rv? with
      | some rv => Value.beq rv qv
      | _ => false
termination_by qv _ => (sizeOf qv, 0)

/-- The spec's matcher: an empty query matches every record; otherwise
every top-level query key must match (logical AND). -/
def specMatches (record : Data) (query : Data) : Bool :=
  if query.isEmpty then true
  else specMatchAll record query
termination_by (sizeOf query, 1)

/-- Conjunction over the query's keys. -/
def specMatchAll (record : Data) : Data → Bool
  | [] => true
  | (k, qv) :: rest => specMatchValue qv (lookupKey record k) && specMatchAll record rest
termination_by q => (sizeOf q, 0)
end

/-!
## `JSONDriver` — first variant of `src/drivers/JSONDriver.ts`

This variant keeps no connection flag: no method checks a lifecycle
state.  It has an `autoSave` flag consulted by the mutators.
-/

namespace JSONDriver

/-- Instance state: the in-memory array `records` and the `autoSave`
flag set by the constructor. -/
structure State where
  records : List Data
  autoSave : Bool
  deriving Repr

/-- A freshly constructed instance (`records = []`). -/
def init (autoSave : Bool) : State := { records := [], autoSave := autoSave }

/-- `connect()`: reads and parses the file; an array becomes the data, a
legacy object with a truthy object `records` field contributes that
field's values, any other decoded value gives an empty array.  A missing
file (ENOENT) starts empty and, under autoSave, writes an initial empty
snapshot.  Any other error — a `JSON.parse` failure included — is
rethrown, leaving `records` unassigned. -/
def connect (s : State) (file : Option FileContent) : DriverOut State Unit :=
  match file with
  | none =>
      { ret := .ok (), state := { s with records := [] },
        saves := if s.autoSave then [[]] else [] }
  | some .malformed => { ret := .error .parseError, state := s, saves := [] }
  | some (.ok p) =>
      let rs := match p with
        | .arr rs => rs
        | .recordsObj rs => rs
        | .other => []
      { ret := .ok (), state := { s with records := rs }, saves := [] }

/-- `disconnect()`: persists unconditionally, then clears memory. -/
def disconnect (s : State) : DriverOut State Unit :=
  { ret := .ok (), state := { s with records := [] }, saves := [s.records] }

/-- `set(data)`: `{...data, _createdAt: now, _updatedAt: now}` — no `_id`
is assigned in this variant — pushed onto the array; autosaves. -/
def set (s : State) (data : Data) (now : String) : DriverOut State Data :=
  let record := setKey (setKey data "_createdAt" (.str now)) "_updatedAt" (.str now)
  let rs := s.records ++ [record]
  { ret := .ok record, state := { s with records := rs },
    saves := if s.autoSave then [rs] else [] }

/-- `get(query)`: filter by `matches`. -/
def get (s : State) (query : Data) : DriverOut State (List Data) :=
  { ret := .ok (s.records.filter (fun r => jsonMatches r query)), state := s, saves := [] }

/-- `update(query, data)`: maps over the array replacing each matching
record by `{...record, ...data, _updatedAt: now}`; the counter the JS
callback increments ends equal to the number of matching records.
Autosaves when at least one record matched. -/
def update (s : State) (query : Data) (data : Data) (now : String) : DriverOut State Nat :=
  let count := s.records.countP (fun r => jsonMatches r query)
  let rs := s.records.map (fun r =>
    if jsonMatches r query then setKey (objMerge r data) "_updatedAt" (.str now) else r)
  { ret := .ok count, state := { s with records := rs },
    saves := if count != 0 && s.autoSave then [rs] else [] }

/-- `delete(query)`: keeps the non-matching records; the count is the
length difference.  Autosaves when something was removed. -/
def delete (s : State) (query : Data) : DriverOut State Nat :=
  let rs := s.records.filter (fun r => !(jsonMatches r query))
  let count := s.records.length - rs.length
  { ret := .ok count, state := { s with records := rs },
    saves := if count != 0 && s.autoSave then [rs] else [] }

/-- The `exists(query)` method (`exists` is a Lean keyword, hence the
name `existsRec`): `some` record matches. -/
def existsRec (s : State) (query : Data) : DriverOut State Bool :=
  { ret := .ok (s.records.any (fun r => jsonMatches r query)), state := s, saves := [] }

/-- `count(query)`: number of matching records. -/
def count (s : State) (query : Data) : DriverOut State Nat :=
  { ret := .ok (s.records.filter (fun r => jsonMatches r query)).length, state := s, saves := [] }

/-- `persist()`: hands the serialized array to the atomic writer. -/
def persist (s : State) : DriverOut State Unit :=
  { ret := .ok (), state := s, saves := [s.records] }

/-- `flush()`: alias for `persist()`. -/
def flush (s : State) : DriverOut State Unit := persist s

/-- `clear()`: empties the array; autosaves. -/
def clear (s : State) : DriverOut State Unit :=
  { ret := .ok (), state := { s with records := [] },
    saves := if s.autoSave then [[]] else [] }

end JSONDriver

/-!
## `JSONDriver2` — second variant of `src/drivers/JSONDriver.ts`

This variant tracks `isConnected`, gates every data operation on it, has
no `autoSave` flag (mutators always write), and `set` keeps a truthy
client-supplied `_id` (`data._id || this.generateId()`).
-/

namespace JSONDriver2

/-- Instance state: in-memory array `data` and the `isConnected` flag. -/
structure State where
  data : List Data
  isConnected : Bool
  deriving Repr

/-- A freshly constructed instance (disconnected, empty). -/
def init : State := { data := [], isConnected := false }

/-- The `matchesQuery` method: same text as `jsonMatches`. -/
def matchesQuery (record query : Data) : Bool := jsonMatches record query

/-- `connect()`: like the first variant, but a successful load also sets
`isConnected`; a missing file starts empty and always writes an initial
snapshot; a parse failure is rethrown with the flag still down. -/
def connect (s : State) (file : Option FileContent) : DriverOut State Unit :=
  match file with
  | none =>
      { ret := .ok (), state := { s with data := [], isConnected := true }, saves := [[]] }
  | some .malformed => { ret := .error .parseError, state := s, saves := [] }
  | some (.ok p) =>
      let rs := match p with
        | .arr rs => rs
        | .recordsObj rs => rs
        | .other => []
      { ret := .ok (), state := { s with data := rs, isConnected := true }, saves := [] }

/-- `disconnect()`: only lowers the flag; the array is retained. -/
def disconnect (s : State) : DriverOut State Unit :=
  { ret := .ok (), state := { s with isConnected := false }, saves := [] }

/-- `set(data)`: gated; `_id` is `data._id` when truthy, else the fresh
generated id; stamps timestamps, pushes, always saves. -/
def set (s : State) (data : Data) (now fresh : String) : DriverOut State Data :=
  if !s.isConnected then { ret := .error .notConnected, state := s, saves := [] }
  else
    let idVal := match lookupKey data "_id" with
      | some v => if v.truthy then v else Value.str fresh
      | none => Value.str fresh
    let record :=
      setKey (setKey (setKey data "_id" idVal) "_createdAt" (.str now)) "_updatedAt" (.str now)
    let rs := s.data ++ [record]
    { ret := .ok record, state := { s with data := rs }, saves := [rs] }

/-- `get(query)`: gated; an empty query returns the spread copy of the
array, else the filter by `matchesQuery`. -/
def get (s : State) (query : Data) : DriverOut State (List Data) :=
  if !s.isConnected then { ret := .error .notConnected, state := s, saves := [] }
  else if query.isEmpty then { ret := .ok s.data, state := s, saves := [] }
  else { ret := .ok (s.data.filter (fun r => matchesQuery r query)), state := s, saves := [] }

/-- `update(query, data)`: gated; same merge as the first variant (no
`_id`/`_createdAt` protection); saves when the count is positive. -/
def update (s : State) (query : Data) (data : Data) (now : String) : DriverOut State Nat :=
  if !s.isConnected then { ret := .error .notConnected, state := s, saves := [] }
  else
    let count := s.data.countP (fun r => matchesQuery r query)
    let rs := s.data.map (fun r =>
      if matchesQuery r query then setKey (objMerge r data) "_updatedAt" (.str now) else r)
    { ret := .ok count, state := { s with data := rs },
      saves := if count != 0 then [rs] else [] }

/-- `delete(query)`: gated; filter plus length difference; saves when the
count is positive. -/
def delete (s : State) (query : Data) : DriverOut State Nat :=
  if !s.isConnected then { ret := .error .notConnected, state := s, saves := [] }
  else
    let rs := s.data.filter (fun r => !(matchesQuery r query))
    let count := s.data.length - rs.length
    { ret := .ok count, state := { s with data := rs },
      saves := if count != 0 then [rs] else [] }

/-- The `exists(query)` method: gated; `some` record matches. -/
def existsRec (s : State) (query : Data) : DriverOut State Bool :=
  if !s.isConnected then { ret := .error .notConnected, state := s, saves := [] }
  else { ret := .ok (s.data.any (fun r => matchesQuery r query)), state := s, saves := [] }

/-- `count(query)`: gated; empty query returns the array length. -/
def count (s : State) (query : Data) : DriverOut State Nat :=
  if !s.isConnected then { ret := .error .notConnected, state := s, saves := [] }
  else if query.isEmpty then { ret := .ok s.data.length, state := s, saves := [] }
  else { ret := .ok (s.data.filter (fun r => matchesQuery r query)).length, state := s, saves := [] }

/-- `save()`: gated manual write. -/
def save (s : State) : DriverOut State Unit :=
  if !s.isConnected then { ret := .error .notConnected, state := s, saves := [] }
  else { ret := .ok (), state := s, saves := [s.data] }

/-- `clear()`: gated; empties and always writes. -/
def clear (s : State) : DriverOut State Unit :=
  if !s.isConnected then { ret := .error .notConnected, state := s, saves := [] }
  else { ret := .ok (), state := { s with data := [] }, saves := [[]] }

/-- `reload()`: gated; a missing file empties the array, a decoded array
replaces it, any other decoded value empties it, and a parse failure is
rethrown leaving the array as it was. -/
def reload (s : State) (file : Option FileContent) : DriverOut State Unit :=
  if !s.isConnected then { ret := .error .notConnected, state := s, saves := [] }
  else
    match file with
    | none => { ret := .ok (), state := { s with data := [] }, saves := [] }
    | some .malformed => { ret := .error .parseError, state := s, saves := [] }
    | some (.ok (.arr rs)) => { ret := .ok (), state := { s with data := rs }, saves := [] }
    | some (.ok _) => { ret := .ok (), state := { s with data := [] }, saves := [] }

end JSONDriver2

/-!
## `YAMLDriver` — `src/drivers/YAMLDriver.ts`

Gated on `isConnected`, with an `autoSave` option.  Its matcher compares
each top-level query key by `JSON.stringify` equality of the whole value
— no recursion into nested mappings.  Its `update` forces `_id` and
`_createdAt` back to the prior record's values.
-/

namespace YAMLDriver

/-- Instance state: in-memory array `data`, `isConnected`, and the
`autoSave` option (default true). -/
structure State where
  data : List Data
  isConnected : Bool
  autoSave : Bool
  deriving Repr

/-- A freshly constructed instance. -/
def init (autoSave : Bool) : State :=
  { data := [], isConnected := false, autoSave := autoSave }

/-- `matchesQuery(record, query)`: for every query entry,
`JSON.stringify(record[key]) === JSON.stringify(value)`.  A missing key
(`undefined`) never serializes equal to a present query value, and on
the `Value` model stringify-equality is structural equality
(`Value.beq`). -/
def matchesQuery (record query : Data) : Bool :=
  query.all (fun kv =>
    match lookupKey record kv.1 with
    | some rv => Value.beq rv kv.2
    | none => false)

/-- `connect()`: a present file is read and `yaml.load`ed — an array
becomes the data, anything else (a parse failure included: the catch
swallows it) gives an empty array; a missing file starts empty and
writes an initial snapshot.  Always ends connected. -/
def connect (s : State) (file : Option FileContent) : DriverOut State Unit :=
  match file with
  | some .malformed =>
      { ret := .ok (), state := { s with data := [], isConnected := true }, saves := [] }
  | some (.ok (.arr rs)) =>
      { ret := .ok (), state := { s with data := rs, isConnected := true }, saves := [] }
  | some (.ok _) =>
      { ret := .ok (), state := { s with data := [], isConnected := true }, saves := [] }
  | none =>
      { ret := .ok (), state := { s with data := [], isConnected := true }, saves := [[]] }

/-- `disconnect()`: saves when autoSave is on, lowers the flag; the
in-memory array is retained. -/
def disconnect (s : State) : DriverOut State Unit :=
  { ret := .ok (), state := { s with isConnected := false },
    saves := if s.autoSave then [s.data] else [] }

/-- `set(data)`: gated; `{...data, _id: generated, _createdAt: now,
_updatedAt: now}` pushed onto the array; saves when autoSave is on.  The
generated id always overrides a client-supplied `_id`. -/
def set (s : State) (data : Data) (now fresh : String) : DriverOut State Data :=
  if !s.isConnected then { ret := .error .notConnected, state := s, saves := [] }
  else
    let record :=
      setKey (setKey (setKey data "_id" (.str fresh)) "_createdAt" (.str now)) "_updatedAt" (.str now)
    let rs := s.data ++ [record]
    { ret := .ok record, state := { s with data := rs },
      saves := if s.autoSave then [rs] else [] }

/-- `get(query)`: gated; an empty query returns the spread copy of the
array, else the filter by `matchesQuery`. -/
def get (s : State) (query : Data) : DriverOut State (List Data) :=
  if !s.isConnected then { ret := .error .notConnected, state := s, saves := [] }
  else if query.isEmpty then { ret := .ok s.data, state := s, saves := [] }
  else { ret := .ok (s.data.filter (fun r => matchesQuery r query)), state := s, saves := [] }

/-- The record `update` writes back in place: `{...rec, ...patch,
_id: rec._id, _createdAt: rec._createdAt, _updatedAt: now}`.  When the
prior record lacks `_id` or `_createdAt`, the literal sets the property
to `undefined`, which every observer in these drivers treats as an
absent key, so the model removes it. -/
def updatedRecord (r patch : Data) (now : String) : Data :=
  let m := objMerge r patch
  let m1 := match lookupKey r "_id" with
    | some v => setKey m "_id" v
    | none => removeKey m "_id"
  let m2 := match lookupKey r "_createdAt" with
    | some v => setKey m1 "_createdAt" v
    | none => removeKey m1 "_createdAt"
  setKey m2 "_updatedAt" (.str now)

/-- `update(query, data)`: gated; the indexed for-loop replaces each
matching element in place (`map` over the array) and its counter ends
equal to the number of matching records; saves when the count is
positive and autoSave is on. -/
def update (s : State) (query patch : Data) (now : String) : DriverOut State Nat :=
  if !s.isConnected then { ret := .error .notConnected, state := s, saves := [] }
  else
    let count := s.data.countP (fun r => matchesQuery r query)
    let rs := s.data.map (fun r =>
      if matchesQuery r query then updatedRecord r patch now else r)
    { ret := .ok count, state := { s with data := rs },
      saves := if count != 0 && s.autoSave then [rs] else [] }

/-- `delete(query)`: gated; filter plus length difference; saves when the
count is positive and autoSave is on. -/
def delete (s : State) (query : Data) : DriverOut State Nat :=
  if !s.isConnected then { ret := .error .notConnected, state := s, saves := [] }
  else
    let rs := s.data.filter (fun r => !(matchesQuery r query))
    let count := s.data.length - rs.length
    { ret := .ok count, state := { s with data := rs },
      saves := if count != 0 && s.autoSave then [rs] else [] }

/-- The `exists(query)` method: gated; `some` record matches. -/
def existsRec (s : State) (query : Data) : DriverOut State Bool :=
  if !s.isConnected then { ret := .error .notConnected, state := s, saves := [] }
  else { ret := .ok (s.data.any (fun r => matchesQuery r query)), state := s, saves := [] }

/-- `count(query)`: gated; empty query returns the array length. -/
def count (s : State) (query : Data) : DriverOut State Nat :=
  if !s.isConnected then { ret := .error .notConnected, state := s, saves := [] }
  else if query.isEmpty then { ret := .ok s.data.length, state := s, saves := [] }
  else { ret := .ok (s.data.filter (fun r => matchesQuery r query)).length, state := s, saves := [] }

/-- `save()`: gated manual write. -/
def save (s : State) : DriverOut State Unit :=
  if !s.isConnected then { ret := .error .notConnected, state := s, saves := [] }
  else { ret := .ok (), state := s, saves := [s.data] }

/-- `clear()`: gated; empties and writes unconditionally (not gated on
autoSave in this variant). -/
def clear (s : State) : DriverOut State Unit :=
  if !s.isConnected then { ret := .error .notConnected, state := s, saves := [] }
  else { ret := .ok (), state := { s with data := [] }, saves := [[]] }

/-- `reload()`: gated.  A missing file leaves everything untouched; a
present file is re-parsed — an array replaces the data, another decoded
shape empties it, and a parse failure is rethrown (wrapped) leaving the
data as it was. -/
def reload (s : State) (file : Option FileContent) : DriverOut State Unit :=
  if !s.isConnected then { ret := .error .notConnected, state := s, saves := [] }
  else
    match file with
    | none => { ret := .ok (), state := s, saves := [] }
    | some .malformed => { ret := .error .parseError, state := s, saves := [] }
    | some (.ok (.arr rs)) => { ret := .ok (), state := { s with data := rs }, saves := [] }
    | some (.ok _) => { ret := .ok (), state := { s with data := [] }, saves := [] }

end YAMLDriver

/-!
## `YAMLDriver0` — the YAML driver variant in `unnamed/part_000`

Same matcher and gating as `YAMLDriver`, but it has no `autoSave` option
and none of its mutators (`set`, `update`, `delete`, `clear`) ever call
`saveToFile`; only `connect` on a missing file and the explicit `save()`
write anything.
-/

namespace YAMLDriver0

/-- Instance state: in-memory array `data` and `isConnected`. -/
structure State where
  data : List Data
  isConnected : Bool
  deriving Repr

/-- A freshly constructed instance. -/
def init : State := { data := [], isConnected := false }

/-- `matchesQuery`: textually identical to `YAMLDriver.matchesQuery`. -/
def matchesQuery (record query : Data) : Bool :=
  YAMLDriver.matchesQuery record query

/-- `connect()`: as in `YAMLDriver.connect` (parse failures swallowed, a
missing file writes an initial empty snapshot). -/
def connect (s : State) (file : Option FileContent) : DriverOut State Unit :=
  match file with
  | some .malformed =>
      { ret := .ok (), state := { s with data := [], isConnected := true }, saves := [] }
  | some (.ok (.arr rs)) =>
      { ret := .ok (), state := { s with data := rs, isConnected := true }, saves := [] }
  | some (.ok _) =>
      { ret := .ok (), state := { s with data := [], isConnected := true }, saves := [] }
  | none =>
      { ret := .ok (), state := { s with data := [], isConnected := true }, saves := [[]] }

/-- `disconnect()`: only lowers the flag; nothing is saved or cleared. -/
def disconnect (s : State) : DriverOut State Unit :=
  { ret := .ok (), state := { s with isConnected := false }, saves := [] }

/-- `set(data)`: gated; builds the record exactly as `YAMLDriver.set`
but returns without any save. -/
def set (s : State) (data : Data) (now fresh : String) : DriverOut State Data :=
  if !s.isConnected then { ret := .error .notConnected, state := s, saves := [] }
  else
    let record :=
      setKey (setKey (setKey data "_id" (.str fresh)) "_createdAt" (.str now)) "_updatedAt" (.str now)
    { ret := .ok record, state := { s with data := s.data ++ [record] }, saves := [] }

/-- `get(query)`: gated; as in `YAMLDriver.get`. -/
def get (s : State) (query : Data) : DriverOut State (List Data) :=
  if !s.isConnected then { ret := .error .notConnected, state := s, saves := [] }
  else if query.isEmpty then { ret := .ok s.data, state := s, saves := [] }
  else { ret := .ok (s.data.filter (fun r => matchesQuery r query)), state := s, saves := [] }

/-- `update(query, data)`: gated; same in-place forced merge as
`YAMLDriver.update`, but never saves. -/
def update (s : State) (query patch : Data) (now : String) : DriverOut State Nat :=
  if !s.isConnected then { ret := .error .notConnected, state := s, saves := [] }
  else
    let count := s.data.countP (fun r => matchesQuery r query)
    let rs := s.data.map (fun r =>
      if matchesQuery r query then YAMLDriver.updatedRecord r patch now else r)
    { ret := .ok count, state := { s with data := rs }, saves := [] }

/-- `delete(query)`: gated; filter plus length difference, no save. -/
def delete (s : State) (query : Data) : DriverOut State Nat :=
  if !s.isConnected then { ret := .error .notConnected, state := s, saves := [] }
  else
    let rs := s.data.filter (fun r => !(matchesQuery r query))
    { ret := .ok (s.data.length - rs.length), state := { s with data := rs }, saves := [] }

/-- The `exists(query)` method: gated. -/
def existsRec (s : State) (query : Data) : DriverOut State Bool :=
  if !s.isConnected then { ret := .error .notConnected, state := s, saves := [] }
  else { ret := .ok (s.data.any (fun r => matchesQuery r query)), state := s, saves := [] }

/-- `count(query)`: gated; empty query returns the array length. -/
def count (s : State) (query : Data) : DriverOut State Nat :=
  if !s.isConnected then { ret := .error .notConnected, state := s, saves := [] }
  else if query.isEmpty then { ret := .ok s.data.length, state := s, saves := [] }
  else { ret := .ok (s.data.filter (fun r => matchesQuery r query)).length, state := s, saves := [] }

/-- `save()`: gated manual write — the only way a mutation reaches the
file in this variant. -/
def save (s : State) : DriverOut State Unit :=
  if !s.isConnected then { ret := .error .notConnected, state := s, saves := [] }
  else { ret := .ok (), state := s, saves := [s.data] }

/-- `clear()`: gated; its doc comment reads "Clears all data from memory
and file", but the body only empties the in-memory array — no save. -/
def clear (s : State) : DriverOut State Unit :=
  if !s.isConnected then { ret := .error .notConnected, state := s, saves := [] }
  else { ret := .ok (), state := { s with data := [] }, saves := [] }

/-- `reload()`: gated; as in `YAMLDriver.reload`. -/
def reload (s : State) (file : Option FileContent) : DriverOut State Unit :=
  if !s.isConnected then { ret := .error .notConnected, state := s, saves := [] }
  else
    match file with
    | none => { ret := .ok (), state := s, saves := [] }
    | some .malformed => { ret := .error .parseError, state := s, saves := [] }
    | some (.ok (.arr rs)) => { ret := .ok (), state := { s with data := rs }, saves := [] }
    | some (.ok _) => { ret := .ok (), state := { s with data := [] }, saves := [] }

end YAMLDriver0

/-!
## Reference semantics of the returned record list

JS arrays hold references to record objects.  `filter` and the spread
copy `[...this.data]` build a NEW array whose elements are the SAME
record references, so this small heap model captures what "mutating a
returned record" does to the store.  `Store.data` is the driver's array
(a list of heap addresses), `get` is the drivers' filter under a matcher
`m`, and `mutateAt` is an in-place mutation of the object behind one
reference.
-/

namespace RefModel

/-- Address of a record object on the JS heap. -/
abbrev Addr := Nat

/-- A driver's array under reference semantics. -/
structure Store where
  heap : List Data
  data : List Addr
  deriving Repr

/-- The record object a reference denotes. -/
def recordAt (s : Store) (a : Addr) : Option Data := s.heap[a]?

/-- The record values the store's array currently denotes. -/
def viewData (s : Store) : List Data := s.data.filterMap (recordAt s)

/-- `get(query)` under reference semantics: a fresh array holding the
store's own references whose records match. -/
def get (m : Data → Data → Bool) (s : Store) (q : Data) : List Addr :=
  s.data.filter (fun a =>
    match recordAt s a with
    | some r => m r q
    | none => false)

/-- In-place mutation of the record object behind one reference. -/
def mutateAt (s : Store) (a : Addr) (r : Data) : Store :=
  { s with heap := s.heap.set a r }

end RefModel

/-!
## Association-list lemmas about `lookupKey`, `setKey`, `objMerge`
-/

theorem lookupKey_append (d e : Data) (k : String) :
    lookupKey (d ++ e) k =
      match lookupKey d k with
      | some v => some v
      | none => lookupKey e k := by
  induction d with
  | nil => simp [lookupKey]
  | cons p rest ih =>
    obtain ⟨k2, v⟩ := p
    by_cases h : k2 = k <;> simp [lookupKey, h, ih]

theorem lookupKey_eq_none_of_not_hasKey (d : Data) (k : String)
    (h : hasKey d k = false) : lookupKey d k = none := by
  induction d with
  | nil => simp [lookupKey]
  | cons p rest ih =>
    obtain ⟨k2, v⟩ := p
    simp only [hasKey, List.any_cons, Bool.or_eq_false_iff] at h
    have hk2 : ¬(k2 = k) := by
      intro hk; rw [hk] at h; simp at h
    simp [lookupKey, hk2, ih h.2]

theorem lookupKey_map_set (d : Data) (k : String) (v : Value)
    (h : hasKey d k = true) :
    lookupKey (d.map (fun p => if p.1 = k then (k, v) else p)) k = some v := by
  induction d with
  | nil => simp [hasKey] at h
  | cons p rest ih =>
    obtain ⟨k2, v2⟩ := p
    simp only [List.map_cons]
    by_cases hk : k2 = k
    · have hhead : (if ((k2, v2) : String × Value).1 = k then (k, v) else (k2, v2)) = (k, v) := by
        simp [hk]
      rw [hhead]
      simp [lookupKey]
    · have hhead : (if ((k2, v2) : String × Value).1 = k then (k, v) else (k2, v2)) = (k2, v2) := by
        simp [hk]
      rw [hhead]
      have h2 : hasKey rest k = true := by
        simp only [hasKey, List.any_cons, Bool.or_eq_true] at h
        rcases h with h | h
        · exact absurd (of_decide_eq_true h) hk
        · simpa [hasKey] using h
      simp only [lookupKey, hk, if_false]
      exact ih h2

theorem lookupKey_map_set_other (d : Data) (k k2 : String) (v : Value)
    (h : ¬(k2 = k)) :
    lookupKey (d.map (fun p => if p.1 = k2 then (k2, v) else p)) k = lookupKey d k := by
  induction d with
  | nil => simp [lookupKey]
  | cons p rest ih =>
    obtain ⟨k3, v3⟩ := p
    simp only [List.map_cons]
    by_cases hk : k3 = k2
    · have hhead : (if ((k3, v3) : String × Value).1 = k2 then (k2, v) else (k3, v3)) = (k2, v) := by
        simp [hk]
      rw [hhead]
      have hk3 : ¬(k3 = k) := by rw [hk]; exact h
      simp only [lookupKey, h, if_false, hk3]
      exact ih
    · have hhead : (if ((k3, v3) : String × Value).1 = k2 then (k2, v) else (k3, v3)) = (k3, v3) := by
        simp [hk]
      rw [hhead]
      by_cases hk3 : k3 = k
      · simp [lookupKey, hk3]
      · simp only [lookupKey, hk3, if_false]
        exact ih

theorem lookupKey_setKey_same (d : Data) (k : String) (v : Value) :
    lookupKey (setKey d k v) k = some v := by
  unfold setKey
  by_cases h : hasKey d k = true
  · simp only [h, if_true]
    exact lookupKey_map_set d k v h
  · have h2 : hasKey d k = false := by simpa using h
    simp only [h2, Bool.false_eq_true, if_false]
    rw [lookupKey_append]
    simp [lookupKey_eq_none_of_not_hasKey d k h2, lookupKey]

theorem lookupKey_setKey_other (d : Data) (k k2 : String) (v : Value)
    (h : k ≠ k2) : lookupKey (setKey d k2 v) k = lookupKey d k := by
  unfold setKey
  by_cases hh : hasKey d k2 = true
  · simp only [hh, if_true]
    exact lookupKey_map_set_other d k k2 v (fun hc => h hc.symm)
  · have h2 : hasKey d k2 = false := by simpa using hh
    simp only [h2, Bool.false_eq_true, if_false]
    rw [lookupKey_append]
    cases hcase : lookupKey d k with
    | some v2 => simp
    | none =>
      have hne : ¬(k2 = k) := fun hc => h hc.symm
      simp [lookupKey, hne]

theorem lookupKey_removeKey_other (d : Data) (k k2 : String) (h : k ≠ k2) :
    lookupKey (removeKey d k2) k = lookupKey d k := by
  induction d with
  | nil => simp [removeKey, lookupKey]
  | cons p rest ih =>
    obtain ⟨k3, v3⟩ := p
    by_cases hk : k3 = k2
    · subst hk
      have hk3 : ¬(k3 = k) := fun hc => h hc.symm
      simp [removeKey, List.filter_cons, lookupKey, hk3]
      simpa [removeKey] using ih
    · by_cases hk3 : k3 = k
      · subst hk3
        simp [removeKey, List.filter_cons, lookupKey, hk]
      · simp [removeKey, List.filter_cons, lookupKey, hk, hk3]
        simpa [removeKey] using ih

theorem lookupKey_objMerge_of_not_hasKey (d p : Data) (k : String)
    (h : hasKey p k = false) : lookupKey (objMerge d p) k = lookupKey d k := by
  induction p generalizing d with
  | nil => simp [objMerge]
  | cons q rest ih =>
    obtain ⟨k2, v2⟩ := q
    simp only [hasKey, List.any_cons, Bool.or_eq_false_iff] at h
    have hk2 : ¬(k2 = k) := by
      intro hk; rw [hk] at h; simp at h
    have step : objMerge d ((k2, v2) :: rest) = objMerge (setKey d k2 v2) rest := rfl
    rw [step, ih (setKey d k2 v2) h.2,
      lookupKey_setKey_other d k k2 v2 (fun hc => hk2 hc.symm)]

/-!
## The JSON matcher equals the spec's reference matcher
-/

theorem specMatches_eq_all (r q : Data) : specMatches r q = specMatchAll r q := by
  cases q with
  | nil => simp [specMatches, specMatchAll]
  | cons p rest => simp [specMatches]

theorem beqList_eq_listEqExact (as bs : List Value) :
    beqList as bs = listEqExact as bs := by
  induction as generalizing bs with
  | nil => cases bs <;> simp [beqList, listEqExact]
  | cons a rest ih => cases bs <;> simp [beqList, listEqExact, ih]

mutual
theorem matchOne_eq_spec (qv : Value) (rv? : Option Value) :
    matchOne qv rv? = specMatchValue qv rv? := by
  cases qv with
  | null =>
    cases rv? with
    | none => simp [matchOne, specMatchValue]
    | some rv => cases rv <;> simp [matchOne, specMatchValue]
  | bool b =>
    cases rv? with
    | none => simp [matchOne, specMatchValue]
    | some rv => cases rv <;> simp [matchOne, specMatchValue]
  | num n =>
    cases rv? with
    | none => simp [matchOne, specMatchValue]
    | some rv => cases rv <;> simp [matchOne, specMatchValue]
  | str s =>
    cases rv? with
    | none => simp [matchOne, specMatchValue]
    | some rv => cases rv <;> simp [matchOne, specMatchValue]
  | list qs =>
    cases rv? with
    | none => simp [matchOne, specMatchValue]
    | some rv =>
      cases rv <;> simp [matchOne, specMatchValue, Value.beq, beqList_eq_listEqExact]
  | map qkvs =>
    cases rv? with
    | none => simp [matchOne, specMatchValue]
    | some rv =>
      cases rv with
      | map rkvs =>
        have h := matchMap_eq_spec qkvs rkvs
        simp [matchOne, specMatchValue, h, specMatches_eq_all]
      | null => simp [matchOne, specMatchValue]
      | bool b => simp [matchOne, specMatchValue]
      | num n => simp [matchOne, specMatchValue]
      | str s => simp [matchOne, specMatchValue]
      | list rs => simp [matchOne, specMatchValue]
termination_by sizeOf qv

theorem matchMap_eq_spec (q r : Data) : matchMap q r = specMatchAll r q := by
  cases q with
  | nil => simp [matchMap, specMatchAll]
  | cons p rest =>
    obtain ⟨k, qv⟩ := p
    have h1 := matchOne_eq_spec qv (lookupKey r k)
    have h2 := matchMap_eq_spec rest r
    simp [matchMap, specMatchAll, h1, h2]
termination_by sizeOf q
end

theorem jsonMatches_eq_specMatches (record query : Data) :
    jsonMatches record query = specMatches record query := by
  rw [jsonMatches, specMatches_eq_all]
  exact matchMap_eq_spec query record

theorem lookupKey_removeKey_same (d : Data) (k : String) :
    lookupKey (removeKey d k) k = none := by
  induction d with
  | nil => simp [removeKey, lookupKey]
  | cons p rest ih =>
    obtain ⟨k2, v⟩ := p
    by_cases hk : k2 = k
    · simp [removeKey, List.filter_cons, hk]
      simpa [removeKey] using ih
    · simp [removeKey, List.filter_cons, lookupKey, hk]
      simpa [removeKey] using ih

theorem hasKey_eq_false_of_not_mem (d : Data) (k : String)
    (h : k ∉ d.map Prod.fst) : hasKey d k = false := by
  rw [hasKey, List.any_eq_false]
  intro p hp
  simp only [decide_eq_true_eq]
  intro hpk
  exact h (List.mem_map.mpr ⟨p, hp, hpk⟩)

theorem lookupKey_objMerge_mem (d p : Data) (k : String) (v : Value)
    (hnd : (p.map Prod.fst).Nodup) (hmem : (k, v) ∈ p) :
    lookupKey (objMerge d p) k = some v := by
  induction p generalizing d with
  | nil => cases hmem
  | cons q rest ih =>
    obtain ⟨k2, v2⟩ := q
    simp only [List.map_cons, List.nodup_cons] at hnd
    have step : objMerge d ((k2, v2) :: rest) = objMerge (setKey d k2 v2) rest := rfl
    rcases List.mem_cons.mp hmem with heq | hmem2
    · cases heq
      have hrest : hasKey rest k = false := hasKey_eq_false_of_not_mem rest k hnd.1
      rw [step, lookupKey_objMerge_of_not_hasKey _ _ _ hrest]
      exact lookupKey_setKey_same d k v
    · rw [step]
      exact ih (setKey d k2 v2) hnd.2 hmem2

/-- Field facts about the record `YAMLDriver.update` writes back:
`_id` and `_createdAt` keep the prior record's values (present or
absent), `_updatedAt` becomes `now`, and every other key not touched by
the patch keeps the prior record's value. -/
theorem updatedRecord_fields (r patch : Data) (now : String) :
    lookupKey (YAMLDriver.updatedRecord r patch now) "_id" = lookupKey r "_id" ∧
    lookupKey (YAMLDriver.updatedRecord r patch now) "_createdAt" = lookupKey r "_createdAt" ∧
    lookupKey (YAMLDriver.updatedRecord r patch now) "_updatedAt" = some (Value.str now) ∧
    (∀ k : String, hasKey patch k = false → ¬(k = "_id") → ¬(k = "_createdAt") →
      ¬(k = "_updatedAt") →
      lookupKey (YAMLDriver.updatedRecord r patch now) k = lookupKey r k) := by
  unfold YAMLDriver.updatedRecord
  cases h1 : lookupKey r "_id" with
  | some v1 =>
    cases h2 : lookupKey r "_createdAt" with
    | some v2 =>
      refine ⟨?_, ?_, ?_, ?_⟩
      · rw [lookupKey_setKey_other _ _ _ _ (by decide),
          lookupKey_setKey_other _ _ _ _ (by decide), lookupKey_setKey_same]
      · rw [lookupKey_setKey_other _ _ _ _ (by decide), lookupKey_setKey_same]
      · rw [lookupKey_setKey_same]
      · intro k hk hid hcr hup
        rw [lookupKey_setKey_other _ _ _ _ hup, lookupKey_setKey_other _ _ _ _ hcr,
          lookupKey_setKey_other _ _ _ _ hid, lookupKey_objMerge_of_not_hasKey _ _ _ hk]
    | none =>
      refine ⟨?_, ?_, ?_, ?_⟩
      · rw [lookupKey_setKey_other _ _ _ _ (by decide),
          lookupKey_removeKey_other _ _ _ (by decide), lookupKey_setKey_same]
      · rw [lookupKey_setKey_other _ _ _ _ (by decide), lookupKey_removeKey_same]
      · rw [lookupKey_setKey_same]
      · intro k hk hid hcr hup
        rw [lookupKey_setKey_other _ _ _ _ hup, lookupKey_removeKey_other _ _ _ hcr,
          lookupKey_setKey_other _ _ _ _ hid, lookupKey_objMerge_of_not_hasKey _ _ _ hk]
  | none =>
    cases h2 : lookupKey r "_createdAt" with
    | some v2 =>
      refine ⟨?_, ?_, ?_, ?_⟩
      · rw [lookupKey_setKey_other _ _ _ _ (by decide),
          lookupKey_setKey_other _ _ _ _ (by decide), lookupKey_removeKey_same]
      · rw [lookupKey_setKey_other _ _ _ _ (by decide), lookupKey_setKey_same]
      · rw [lookupKey_setKey_same]
      · intro k hk hid hcr hup
        rw [lookupKey_setKey_other _ _ _ _ hup, lookupKey_setKey_other _ _ _ _ hcr,
          lookupKey_removeKey_other _ _ _ hid, lookupKey_objMerge_of_not_hasKey _ _ _ hk]
    | none =>
      refine ⟨?_, ?_, ?_, ?_⟩
      · rw [lookupKey_setKey_other _ _ _ _ (by decide),
          lookupKey_removeKey_other _ _ _ (by decide), lookupKey_removeKey_same]
      · rw [lookupKey_setKey_other _ _ _ _ (by decide), lookupKey_removeKey_same]
      · rw [lookupKey_setKey_same]
      · intro k hk hid hcr hup
        rw [lookupKey_setKey_other _ _ _ _ hup, lookupKey_removeKey_other _ _ _ hcr,
          lookupKey_removeKey_other _ _ _ hid, lookupKey_objMerge_of_not_hasKey _ _ _ hk]

/-!
## Claims
-/

/-- C1 counterexample: the claim asserts that the predicate matcher of
BOTH drivers equals the reference definition and, in particular, that a
query selecting key a with the nested mapping b = 2 matches a record
whose a holds b = 2 and c = 99 in both drivers.  The JSON matcher
accepts (subset recursion), but the YAML matcher compares the whole
value by serialized equality and rejects, so the claim is false. -/
theorem c1_counterexample :
    jsonMatches [("a", Value.map [("b", Value.num 2), ("c", Value.num 99)])]
      [("a", Value.map [("b", Value.num 2)])] = true ∧
    YAMLDriver.matchesQuery [("a", Value.map [("b", Value.num 2), ("c", Value.num 99)])]
      [("a", Value.map [("b", Value.num 2)])] = false :=
  ⟨rfl, rfl⟩

/-- C1 (amended): the JSON drivers' matcher equals the reference
definition of the spec for every record and query (empty query matches;
per key: nested-mapping subset recursion, exact order-sensitive list
equality, scalar value equality); the YAML driver instead requires, for
every top-level query key, that the record hold the key with a value
deep-equal (serialized-equal) to the query value, so nested subset
matching applies only in the JSON drivers. -/
theorem c1_matcher_amended :
    (∀ record query : Data, jsonMatches record query = specMatches record query) ∧
    (∀ record query : Data, YAMLDriver.matchesQuery record query =
      query.all (fun kv =>
        match lookupKey record kv.1 with
        | some rv => Value.beq rv kv.2
        | none => false)) :=
  ⟨jsonMatches_eq_specMatches, fun _ _ => rfl⟩

/-- C2 counterexample: the claim asserts that update forces prior `_id`
and `_createdAt` for every connected store; in the second JSON variant a
patch carrying `_id` and `_createdAt` overwrites both on the matching
record. -/
theorem c2_counterexample :
    (JSONDriver2.update
        { data := [[("_id", Value.str "orig"), ("_createdAt", Value.str "t0"), ("x", Value.num 1)]],
          isConnected := true }
        [] [("_id", Value.str "evil"), ("_createdAt", Value.str "t9")] "t1").ret
      = Except.ok 1 ∧
    (JSONDriver2.update
        { data := [[("_id", Value.str "orig"), ("_createdAt", Value.str "t0"), ("x", Value.num 1)]],
          isConnected := true }
        [] [("_id", Value.str "evil"), ("_createdAt", Value.str "t9")] "t1").state.data
      = [[("_id", Value.str "evil"), ("_createdAt", Value.str "t9"), ("x", Value.num 1),
          ("_updatedAt", Value.str "t1")]] :=
  ⟨rfl, rfl⟩

/-- C2 (amended): on a connected store, update(query, patch) returns the
number of matching records and replaces each matching record in place
(non-matching records are untouched and keep their positions) by the
merge of the patch over its fields with `_updatedAt` set to now; the
YAML driver forces `_id` and `_createdAt` back to their prior values
regardless of patch content, while the JSON drivers let the patch
overwrite `_id` and `_createdAt` too. -/
theorem c2_update_amended :
    (∀ (s : YAMLDriver.State) (query patch : Data) (now : String),
      s.isConnected = true →
      (YAMLDriver.update s query patch now).ret
          = Except.ok (s.data.countP (fun r => YAMLDriver.matchesQuery r query)) ∧
      (YAMLDriver.update s query patch now).state.data
          = s.data.map (fun r =>
              if YAMLDriver.matchesQuery r query then YAMLDriver.updatedRecord r patch now
              else r)) ∧
    (∀ (r patch : Data) (now : String),
      lookupKey (YAMLDriver.updatedRecord r patch now) "_id" = lookupKey r "_id" ∧
      lookupKey (YAMLDriver.updatedRecord r patch now) "_createdAt"
          = lookupKey r "_createdAt" ∧
      lookupKey (YAMLDriver.updatedRecord r patch now) "_updatedAt"
          = some (Value.str now) ∧
      (∀ k : String, hasKey patch k = false → ¬(k = "_id") → ¬(k = "_createdAt") →
        ¬(k = "_updatedAt") →
        lookupKey (YAMLDriver.updatedRecord r patch now) k = lookupKey r k)) ∧
    (∀ (s : JSONDriver2.State) (query patch : Data) (now : String),
      s.isConnected = true →
      (JSONDriver2.update s query patch now).ret
          = Except.ok (s.data.countP (fun r => JSONDriver2.matchesQuery r query)) ∧
      (JSONDriver2.update s query patch now).state.data
          = s.data.map (fun r =>
              if JSONDriver2.matchesQuery r query then
                setKey (objMerge r patch) "_updatedAt" (Value.str now)
              else r)) ∧
    (∀ (r patch : Data) (now : String) (k : String) (v : Value),
      (patch.map Prod.fst).Nodup → (k, v) ∈ patch → ¬(k = "_updatedAt") →
      lookupKey (setKey (objMerge r patch) "_updatedAt" (Value.str now)) k = some v) ∧
    (∀ (s : YAMLDriver0.State) (query patch : Data) (now : String),
      s.isConnected = true →
      (YAMLDriver0.update s query patch now).ret
          = Except.ok (s.data.countP (fun r => YAMLDriver0.matchesQuery r query)) ∧
      (YAMLDriver0.update s query patch now).state.data
          = s.data.map (fun r =>
              if YAMLDriver0.matchesQuery r query then YAMLDriver.updatedRecord r patch now
              else r)) ∧
    (∀ (s : JSONDriver.State) (query patch : Data) (now : String),
      (JSONDriver.update s query patch now).ret
          = Except.ok (s.records.countP (fun r => jsonMatches r query)) ∧
      (JSONDriver.update s query patch now).state.records
          = s.records.map (fun r =>
              if jsonMatches r query then
                setKey (objMerge r patch) "_updatedAt" (Value.str now)
              else r)) := by
  refine ⟨?_, ?_, ?_, ?_, ?_, ?_⟩
  · intro s query patch now h
    constructor <;> simp [YAMLDriver.update, h]
  · intro r patch now
    exact updatedRecord_fields r patch now
  · intro s query patch now h
    constructor <;> simp [JSONDriver2.update, h]
  · intro r patch now k v hnd hmem hup
    rw [lookupKey_setKey_other _ _ _ _ hup]
    exact lookupKey_objMerge_mem r patch k v hnd hmem
  · intro s query patch now h
    constructor <;> simp [YAMLDriver0.update, h]
  · intro s query patch now
    exact ⟨rfl, rfl⟩

/-- C2 witness: the amended theorem applied to concrete connected stores
of each gated variant, with one record that an empty query matches. -/
theorem c2_update_witness :
    (YAMLDriver.update
        { data := [[("_id", Value.str "a"), ("x", Value.num 1)]],
          isConnected := true, autoSave := true }
        [] [("x", Value.num 5)] "t").ret
      = Except.ok ([[("_id", Value.str "a"), ("x", Value.num 1)]].countP
          (fun r => YAMLDriver.matchesQuery r [])) ∧
    (JSONDriver2.update { data := [[("y", Value.num 2)]], isConnected := true }
        [] [("y", Value.num 7)] "t").ret
      = Except.ok ([[("y", Value.num 2)]].countP
          (fun r => JSONDriver2.matchesQuery r [])) ∧
    (YAMLDriver0.update { data := [[("z", Value.num 3)]], isConnected := true }
        [] [("z", Value.num 9)] "t").ret
      = Except.ok ([[("z", Value.num 3)]].countP
          (fun r => YAMLDriver0.matchesQuery r [])) :=
  ⟨(c2_update_amended.1
      { data := [[("_id", Value.str "a"), ("x", Value.num 1)]],
        isConnected := true, autoSave := true }
      [] [("x", Value.num 5)] "t" rfl).1,
    (c2_update_amended.2.2.1 { data := [[("y", Value.num 2)]], isConnected := true }
      [] [("y", Value.num 7)] "t" rfl).1,
    (c2_update_amended.2.2.2.2.1 { data := [[("z", Value.num 3)]], isConnected := true }
      [] [("z", Value.num 9)] "t" rfl).1⟩

/-- C3 counterexample: the claim asserts every operation on a
never-connected driver fails with NotConnected and leaves the collection
unchanged; the first JSON variant has no connection check at all — `set`
on a freshly constructed instance succeeds and appends the record. -/
theorem c3_counterexample :
    (JSONDriver.set (JSONDriver.init false) [("x", Value.num 1)] "t").ret
      = Except.ok [("x", Value.num 1), ("_createdAt", Value.str "t"),
          ("_updatedAt", Value.str "t")] ∧
    (JSONDriver.set (JSONDriver.init false) [("x", Value.num 1)] "t").state.records
      = [[("x", Value.num 1), ("_createdAt", Value.str "t"), ("_updatedAt", Value.str "t")]] :=
  ⟨rfl, rfl⟩

/-- C3 (amended): for the YAML drivers and the second JSON variant, each
of set, get, update, delete, exists and count invoked while disconnected
fails with the NotConnected error, leaves the instance state unchanged
and writes nothing; the first JSON variant performs no connection check
— each of its six operations always returns a value. -/
theorem c3_gating_amended :
    (∀ (s : JSONDriver2.State) (data query : Data) (now fresh : String),
      s.isConnected = false →
      ((JSONDriver2.set s data now fresh).ret = Except.error DbError.notConnected ∧
        (JSONDriver2.set s data now fresh).state = s ∧
        (JSONDriver2.set s data now fresh).saves = []) ∧
      ((JSONDriver2.get s query).ret = Except.error DbError.notConnected ∧
        (JSONDriver2.get s query).state = s) ∧
      ((JSONDriver2.update s query data now).ret = Except.error DbError.notConnected ∧
        (JSONDriver2.update s query data now).state = s ∧
        (JSONDriver2.update s query data now).saves = []) ∧
      ((JSONDriver2.delete s query).ret = Except.error DbError.notConnected ∧
        (JSONDriver2.delete s query).state = s ∧
        (JSONDriver2.delete s query).saves = []) ∧
      ((JSONDriver2.existsRec s query).ret = Except.error DbError.notConnected ∧
        (JSONDriver2.existsRec s query).state = s) ∧
      ((JSONDriver2.count s query).ret = Except.error DbError.notConnected ∧
        (JSONDriver2.count s query).state = s)) ∧
    (∀ (s : YAMLDriver.State) (data query : Data) (now fresh : String),
      s.isConnected = false →
      ((YAMLDriver.set s data now fresh).ret = Except.error DbError.notConnected ∧
        (YAMLDriver.set s data now fresh).state = s ∧
        (YAMLDriver.set s data now fresh).saves = []) ∧
      ((YAMLDriver.get s query).ret = Except.error DbError.notConnected ∧
        (YAMLDriver.get s query).state = s) ∧
      ((YAMLDriver.update s query data now).ret = Except.error DbError.notConnected ∧
        (YAMLDriver.update s query data now).state = s ∧
        (YAMLDriver.update s query data now).saves = []) ∧
      ((YAMLDriver.delete s query).ret = Except.error DbError.notConnected ∧
        (YAMLDriver.delete s query).state = s ∧
        (YAMLDriver.delete s query).saves = []) ∧
      ((YAMLDriver.existsRec s query).ret = Except.error DbError.notConnected ∧
        (YAMLDriver.existsRec s query).state = s) ∧
      ((YAMLDriver.count s query).ret = Except.error DbError.notConnected ∧
        (YAMLDriver.count s query).state = s)) ∧
    (∀ (s : YAMLDriver0.State) (data query : Data) (now fresh : String),
      s.isConnected = false →
      ((YAMLDriver0.set s data now fresh).ret = Except.error DbError.notConnected ∧
        (YAMLDriver0.set s data now fresh).state = s) ∧
      ((YAMLDriver0.get s query).ret = Except.error DbError.notConnected ∧
        (YAMLDriver0.get s query).state = s) ∧
      ((YAMLDriver0.update s query data now).ret = Except.error DbError.notConnected ∧
        (YAMLDriver0.update s query data now).state = s) ∧
      ((YAMLDriver0.delete s query).ret = Except.error DbError.notConnected ∧
        (YAMLDriver0.delete s query).state = s) ∧
      ((YAMLDriver0.existsRec s query).ret = Except.error DbError.notConnected ∧
        (YAMLDriver0.existsRec s query).state = s) ∧
      ((YAMLDriver0.count s query).ret = Except.error DbError.notConnected ∧
        (YAMLDriver0.count s query).state = s)) ∧
    (∀ (s : JSONDriver.State) (data query : Data) (now : String),
      (∃ rec, (JSONDriver.set s data now).ret = Except.ok rec) ∧
      (∃ rs, (JSONDriver.get s query).ret = Except.ok rs) ∧
      (∃ n, (JSONDriver.update s query data now).ret = Except.ok n) ∧
      (∃ n, (JSONDriver.delete s query).ret = Except.ok n) ∧
      (∃ b, (JSONDriver.existsRec s query).ret = Except.ok b) ∧
      (∃ n, (JSONDriver.count s query).ret = Except.ok n)) := by
  refine ⟨?_, ?_, ?_, ?_⟩
  · intro s data query now fresh h
    refine ⟨⟨?_, ?_, ?_⟩, ⟨?_, ?_⟩, ⟨?_, ?_, ?_⟩, ⟨?_, ?_, ?_⟩, ⟨?_, ?_⟩, ⟨?_, ?_⟩⟩ <;>
      simp [JSONDriver2.set, JSONDriver2.get, JSONDriver2.update, JSONDriver2.delete,
        JSONDriver2.existsRec, JSONDriver2.count, h]
  · intro s data query now fresh h
    refine ⟨⟨?_, ?_, ?_⟩, ⟨?_, ?_⟩, ⟨?_, ?_, ?_⟩, ⟨?_, ?_, ?_⟩, ⟨?_, ?_⟩, ⟨?_, ?_⟩⟩ <;>
      simp [YAMLDriver.set, YAMLDriver.get, YAMLDriver.update, YAMLDriver.delete,
        YAMLDriver.existsRec, YAMLDriver.count, h]
  · intro s data query now fresh h
    refine ⟨⟨?_, ?_⟩, ⟨?_, ?_⟩, ⟨?_, ?_⟩, ⟨?_, ?_⟩, ⟨?_, ?_⟩, ⟨?_, ?_⟩⟩ <;>
      simp [YAMLDriver0.set, YAMLDriver0.get, YAMLDriver0.update, YAMLDriver0.delete,
        YAMLDriver0.existsRec, YAMLDriver0.count, h]
  · intro s data query now
    exact ⟨⟨_, rfl⟩, ⟨_, rfl⟩, ⟨_, rfl⟩, ⟨_, rfl⟩, ⟨_, rfl⟩, ⟨_, rfl⟩⟩

/-- C3 witness: the amended theorem applied to freshly constructed
(disconnected) instances of each gated driver. -/
theorem c3_gating_witness :
    (JSONDriver2.set JSONDriver2.init [("x", Value.num 1)] "t" "id1").ret
      = Except.error DbError.notConnected ∧
    (YAMLDriver.get (YAMLDriver.init true) []).ret = Except.error DbError.notConnected ∧
    (YAMLDriver0.count YAMLDriver0.init []).ret = Except.error DbError.notConnected :=
  ⟨((c3_gating_amended.1 JSONDriver2.init [("x", Value.num 1)] [] "t" "id1" rfl).1).1,
    ((c3_gating_amended.2.1 (YAMLDriver.init true) [] [] "t" "id" rfl).2.1).1,
    ((c3_gating_amended.2.2.1 YAMLDriver0.init [] [] "t" "id" rfl).2.2.2.2.2).1⟩

/-- Field facts about the record built by `set` in the gated drivers:
`\x7b...data, _id: idv, _createdAt: now, _updatedAt: now\x7d`. -/
theorem setChain_fields (data : Data) (idv : Value) (now : String) :
    lookupKey (setKey (setKey (setKey data "_id" idv) "_createdAt" (Value.str now))
        "_updatedAt" (Value.str now)) "_id" = some idv ∧
    lookupKey (setKey (setKey (setKey data "_id" idv) "_createdAt" (Value.str now))
        "_updatedAt" (Value.str now)) "_createdAt" = some (Value.str now) ∧
    lookupKey (setKey (setKey (setKey data "_id" idv) "_createdAt" (Value.str now))
        "_updatedAt" (Value.str now)) "_updatedAt" = some (Value.str now) ∧
    (∀ k : String, ¬(k = "_id") → ¬(k = "_createdAt") → ¬(k = "_updatedAt") →
      lookupKey (setKey (setKey (setKey data "_id" idv) "_createdAt" (Value.str now))
        "_updatedAt" (Value.str now)) k = lookupKey data k) := by
  refine ⟨?_, ?_, ?_, ?_⟩
  · rw [lookupKey_setKey_other _ _ _ _ (by decide),
      lookupKey_setKey_other _ _ _ _ (by decide), lookupKey_setKey_same]
  · rw [lookupKey_setKey_other _ _ _ _ (by decide), lookupKey_setKey_same]
  · rw [lookupKey_setKey_same]
  · intro k hid hcr hup
    rw [lookupKey_setKey_other _ _ _ _ hup, lookupKey_setKey_other _ _ _ _ hcr,
      lookupKey_setKey_other _ _ _ _ hid]

/-- C4 counterexample: the claim asserts that for every driver the
initial connect swallows a decode failure and starts empty; both JSON
variants rethrow the `JSON.parse` failure from `connect` instead (and the
second variant stays disconnected). -/
theorem c4_counterexample :
    (JSONDriver.connect (JSONDriver.init true) (some FileContent.malformed)).ret
      = Except.error DbError.parseError ∧
    (JSONDriver2.connect JSONDriver2.init (some FileContent.malformed)).ret
      = Except.error DbError.parseError ∧
    (JSONDriver2.connect JSONDriver2.init (some FileContent.malformed)).state.isConnected
      = false :=
  ⟨rfl, rfl, rfl⟩

/-- C4 (amended): for the YAML drivers, an explicit reload of malformed
content raises the ParseError and leaves the state unchanged, while
connect swallows the decode failure and starts with an empty collection
(ending connected); for the JSON drivers, connect — and the second
variant's reload — propagate the decode failure unchanged. -/
theorem c4_parse_amended :
    (∀ (s : YAMLDriver.State), s.isConnected = true →
      (YAMLDriver.reload s (some FileContent.malformed)).ret
          = Except.error DbError.parseError ∧
      (YAMLDriver.reload s (some FileContent.malformed)).state = s) ∧
    (∀ (s : YAMLDriver0.State), s.isConnected = true →
      (YAMLDriver0.reload s (some FileContent.malformed)).ret
          = Except.error DbError.parseError ∧
      (YAMLDriver0.reload s (some FileContent.malformed)).state = s) ∧
    (∀ (s : YAMLDriver.State),
      (YAMLDriver.connect s (some FileContent.malformed)).ret = Except.ok () ∧
      (YAMLDriver.connect s (some FileContent.malformed)).state.data = [] ∧
      (YAMLDriver.connect s (some FileContent.malformed)).state.isConnected = true) ∧
    (∀ (s : YAMLDriver0.State),
      (YAMLDriver0.connect s (some FileContent.malformed)).ret = Except.ok () ∧
      (YAMLDriver0.connect s (some FileContent.malformed)).state.data = [] ∧
      (YAMLDriver0.connect s (some FileContent.malformed)).state.isConnected = true) ∧
    (∀ (s : JSONDriver.State),
      (JSONDriver.connect s (some FileContent.malformed)).ret
          = Except.error DbError.parseError ∧
      (JSONDriver.connect s (some FileContent.malformed)).state = s) ∧
    (∀ (s : JSONDriver2.State),
      (JSONDriver2.connect s (some FileContent.malformed)).ret
          = Except.error DbError.parseError ∧
      (JSONDriver2.connect s (some FileContent.malformed)).state = s) ∧
    (∀ (s : JSONDriver2.State), s.isConnected = true →
      (JSONDriver2.reload s (some FileContent.malformed)).ret
          = Except.error DbError.parseError ∧
      (JSONDriver2.reload s (some FileContent.malformed)).state = s) := by
  refine ⟨?_, ?_, ?_, ?_, ?_, ?_, ?_⟩
  · intro s h
    constructor <;> simp [YAMLDriver.reload, h]
  · intro s h
    constructor <;> simp [YAMLDriver0.reload, h]
  · intro s
    exact ⟨rfl, rfl, rfl⟩
  · intro s
    exact ⟨rfl, rfl, rfl⟩
  · intro s
    exact ⟨rfl, rfl⟩
  · intro s
    exact ⟨rfl, rfl⟩
  · intro s h
    constructor <;> simp [JSONDriver2.reload, h]

/-- C4 witness: the amended theorem applied to concrete connected YAML
states with one record each. -/
theorem c4_parse_witness :
    (YAMLDriver.reload
        { data := [[("x", Value.num 1)]], isConnected := true, autoSave := true }
        (some FileContent.malformed)).ret = Except.error DbError.parseError ∧
    (YAMLDriver0.reload { data := [[("y", Value.num 2)]], isConnected := true }
        (some FileContent.malformed)).state
      = { data := [[("y", Value.num 2)]], isConnected := true } :=
  ⟨(c4_parse_amended.1
      { data := [[("x", Value.num 1)]], isConnected := true, autoSave := true } rfl).1,
    (c4_parse_amended.2.1 { data := [[("y", Value.num 2)]], isConnected := true } rfl).2⟩

/-- C5 counterexample: the claim asserts that the record returned by set
always carries a system-assigned `_id`; the first JSON variant assigns
no `_id` at all — the returned record of a set on a connected-style
store holds only the input field and the two timestamps. -/
theorem c5_counterexample :
    (JSONDriver.set { records := [], autoSave := true } [("x", Value.num 1)] "t").ret
      = Except.ok [("x", Value.num 1), ("_createdAt", Value.str "t"),
          ("_updatedAt", Value.str "t")] ∧
    lookupKey [("x", Value.num 1), ("_createdAt", Value.str "t"), ("_updatedAt", Value.str "t")]
      "_id" = none :=
  ⟨rfl, rfl⟩

/-- C5 (amended): on a connected store, set(R) appends exactly one
record at the end of the collection and returns it, with `_createdAt`
equal to `_updatedAt` (both the call's clock value) and R's non-system
fields preserved; the YAML drivers assign the freshly generated `_id`
(overriding any client `_id`), the second JSON variant keeps a truthy
client-supplied `_id` and generates one otherwise, and the first JSON
variant assigns no `_id` at all.  Uniqueness of generated ids is only
probabilistic (timestamp plus randomness) and is modelled by the `fresh`
parameter. -/
theorem c5_set_amended :
    (∀ (s : YAMLDriver.State) (data : Data) (now fresh : String),
      s.isConnected = true →
      (YAMLDriver.set s data now fresh).ret
          = Except.ok (setKey (setKey (setKey data "_id" (Value.str fresh))
              "_createdAt" (Value.str now)) "_updatedAt" (Value.str now)) ∧
      (YAMLDriver.set s data now fresh).state.data
          = s.data ++ [setKey (setKey (setKey data "_id" (Value.str fresh))
              "_createdAt" (Value.str now)) "_updatedAt" (Value.str now)] ∧
      lookupKey (setKey (setKey (setKey data "_id" (Value.str fresh))
          "_createdAt" (Value.str now)) "_updatedAt" (Value.str now)) "_id"
        = some (Value.str fresh) ∧
      lookupKey (setKey (setKey (setKey data "_id" (Value.str fresh))
          "_createdAt" (Value.str now)) "_updatedAt" (Value.str now)) "_createdAt"
        = some (Value.str now) ∧
      lookupKey (setKey (setKey (setKey data "_id" (Value.str fresh))
          "_createdAt" (Value.str now)) "_updatedAt" (Value.str now)) "_updatedAt"
        = some (Value.str now) ∧
      (∀ k : String, ¬(k = "_id") → ¬(k = "_createdAt") → ¬(k = "_updatedAt") →
        lookupKey (setKey (setKey (setKey data "_id" (Value.str fresh))
          "_createdAt" (Value.str now)) "_updatedAt" (Value.str now)) k
        = lookupKey data k)) ∧
    (∀ (s : YAMLDriver0.State) (data : Data) (now fresh : String),
      s.isConnected = true →
      (YAMLDriver0.set s data now fresh).ret
          = Except.ok (setKey (setKey (setKey data "_id" (Value.str fresh))
              "_createdAt" (Value.str now)) "_updatedAt" (Value.str now)) ∧
      (YAMLDriver0.set s data now fresh).state.data
          = s.data ++ [setKey (setKey (setKey data "_id" (Value.str fresh))
              "_createdAt" (Value.str now)) "_updatedAt" (Value.str now)]) ∧
    (∀ (s : JSONDriver2.State) (data : Data) (now fresh : String),
      s.isConnected = true →
      (JSONDriver2.set s data now fresh).ret
          = Except.ok (setKey (setKey (setKey data "_id"
              (match lookupKey data "_id" with
                | some v => if v.truthy then v else Value.str fresh
                | none => Value.str fresh))
              "_createdAt" (Value.str now)) "_updatedAt" (Value.str now)) ∧
      (JSONDriver2.set s data now fresh).state.data
          = s.data ++ [setKey (setKey (setKey data "_id"
              (match lookupKey data "_id" with
                | some v => if v.truthy then v else Value.str fresh
                | none => Value.str fresh))
              "_createdAt" (Value.str now)) "_updatedAt" (Value.str now)] ∧
      lookupKey (setKey (setKey (setKey data "_id"
              (match lookupKey data "_id" with
                | some v => if v.truthy then v else Value.str fresh
                | none => Value.str fresh))
              "_createdAt" (Value.str now)) "_updatedAt" (Value.str now)) "_id"
        = some (match lookupKey data "_id" with
                | some v => if v.truthy then v else Value.str fresh
                | none => Value.str fresh)) ∧
    (∀ (s : JSONDriver.State) (data : Data) (now : String),
      (JSONDriver.set s data now).ret
          = Except.ok (setKey (setKey data "_createdAt" (Value.str now))
              "_updatedAt" (Value.str now)) ∧
      (JSONDriver.set s data now).state.records
          = s.records ++ [setKey (setKey data "_createdAt" (Value.str now))
              "_updatedAt" (Value.str now)] ∧
      (hasKey data "_id" = false →
        lookupKey (setKey (setKey data "_createdAt" (Value.str now))
          "_updatedAt" (Value.str now)) "_id" = none)) := by
  refine ⟨?_, ?_, ?_, ?_⟩
  · intro s data now fresh h
    have hf := setChain_fields data (Value.str fresh) now
    refine ⟨?_, ?_, hf.1, hf.2.1, hf.2.2.1, hf.2.2.2⟩ <;> simp [YAMLDriver.set, h]
  · intro s data now fresh h
    constructor <;> simp [YAMLDriver0.set, h]
  · intro s data now fresh h
    have hf := setChain_fields data
      (match lookupKey data "_id" with
        | some v => if v.truthy then v else Value.str fresh
        | none => Value.str fresh) now
    refine ⟨?_, ?_, hf.1⟩ <;> simp [JSONDriver2.set, h]
  · intro s data now
    refine ⟨rfl, rfl, ?_⟩
    intro hk
    rw [lookupKey_setKey_other _ _ _ _ (by decide),
      lookupKey_setKey_other _ _ _ _ (by decide)]
    exact lookupKey_eq_none_of_not_hasKey data "_id" hk

/-- C5 witness: the amended theorem applied to a concrete connected YAML
store and an input without system fields. -/
theorem c5_set_witness :
    (YAMLDriver.set { data := [], isConnected := true, autoSave := true }
        [("x", Value.num 1)] "t" "id1").state.data
      = [] ++ [setKey (setKey (setKey [("x", Value.num 1)] "_id" (Value.str "id1"))
          "_createdAt" (Value.str "t")) "_updatedAt" (Value.str "t")] :=
  (c5_set_amended.1 { data := [], isConnected := true, autoSave := true }
    [("x", Value.num 1)] "t" "id1" rfl).2.1

/-- C6 (code_bug): in the part_000 YAML variant no mutator ever saves —
`clear` on a connected store (whose own doc comment says it clears the
file too) and `set` both return with no write to the backing file, while
the primary YAML driver's `clear` and the first JSON variant's `set`
(autoSave on) do write.  This contradicts the autosave policy the other
drivers implement and the variant's own documentation. -/
theorem c6_autosave_bug :
    (YAMLDriver0.clear { data := [[("x", Value.num 1)]], isConnected := true }).saves = [] ∧
    (YAMLDriver0.clear { data := [[("x", Value.num 1)]], isConnected := true }).state.data
      = [] ∧
    (YAMLDriver0.set { data := [], isConnected := true } [("x", Value.num 1)] "t" "id1").saves
      = [] ∧
    (YAMLDriver0.set { data := [], isConnected := true } [("x", Value.num 1)] "t" "id1").ret
      = Except.ok [("x", Value.num 1), ("_id", Value.str "id1"),
          ("_createdAt", Value.str "t"), ("_updatedAt", Value.str "t")] ∧
    (YAMLDriver.clear
        { data := [[("x", Value.num 1)]], isConnected := true, autoSave := true }).saves
      = [[]] ∧
    (JSONDriver.set (JSONDriver.init true) [("x", Value.num 1)] "t").saves
      = [[[("x", Value.num 1), ("_createdAt", Value.str "t"), ("_updatedAt", Value.str "t")]]] :=
  ⟨rfl, rfl, rfl, rfl, rfl, rfl⟩

/-- C7 counterexample: the claim asserts that records returned by get
are copies, so mutating one must not change the store.  Under JS
reference semantics get returns the store's own record references: on a
one-record store, get returns reference 0, and mutating the record
behind it changes the store's view from x = 1 to x = 2. -/
theorem c7_counterexample :
    RefModel.get YAMLDriver.matchesQuery
      { heap := [[("x", Value.num 1)]], data := [0] } [] = [0] ∧
    RefModel.viewData { heap := [[("x", Value.num 1)]], data := [0] }
      = [[("x", Value.num 1)]] ∧
    RefModel.viewData (RefModel.mutateAt
        { heap := [[("x", Value.num 1)]], data := [0] } 0 [("x", Value.num 2)])
      = [[("x", Value.num 2)]] :=
  ⟨rfl, rfl, rfl⟩

/-- C7 (amended): on a connected store, get(query) returns a fresh list
of exactly the matching records in storage (insertion) order — a sublist
of the collection — and leaves the state unchanged; but the returned
elements are the store's own record references rather than copies:
every reference returned by get is in the store's array, and mutating
the record behind a returned reference is visible through the store. -/
theorem c7_get_amended :
    (∀ (s : YAMLDriver.State) (q : Data), s.isConnected = true →
      (YAMLDriver.get s q).ret
          = Except.ok (if q.isEmpty then s.data
              else s.data.filter (fun r => YAMLDriver.matchesQuery r q)) ∧
      (if q.isEmpty then s.data
          else s.data.filter (fun r => YAMLDriver.matchesQuery r q)).Sublist s.data ∧
      (YAMLDriver.get s q).state = s) ∧
    (∀ (s : JSONDriver.State) (q : Data),
      (JSONDriver.get s q).ret
          = Except.ok (s.records.filter (fun r => jsonMatches r q)) ∧
      (s.records.filter (fun r => jsonMatches r q)).Sublist s.records ∧
      (JSONDriver.get s q).state = s) ∧
    (∀ (m : Data → Data → Bool) (s : RefModel.Store) (q : Data) (a : RefModel.Addr),
      a ∈ RefModel.get m s q → a ∈ s.data) ∧
    (∀ (m : Data → Data → Bool) (s : RefModel.Store) (q : Data) (a : RefModel.Addr)
        (r2 : Data),
      a ∈ RefModel.get m s q →
      RefModel.recordAt (RefModel.mutateAt s a r2) a = some r2 ∧
      a ∈ (RefModel.mutateAt s a r2).data) := by
  refine ⟨?_, ?_, ?_, ?_⟩
  · intro s q h
    refine ⟨?_, ?_, ?_⟩
    · by_cases he : q.isEmpty <;> simp [YAMLDriver.get, h, he]
    · by_cases he : q.isEmpty <;> simp [he, List.filter_sublist]
    · by_cases he : q.isEmpty <;> simp [YAMLDriver.get, h, he]
  · intro s q
    exact ⟨rfl, List.filter_sublist _, rfl⟩
  · intro m s q a h
    rw [RefModel.get] at h
    exact (List.mem_filter.mp h).1
  · intro m s q a r2 h
    rw [RefModel.get] at h
    have hmem := (List.mem_filter.mp h).1
    have hpred := (List.mem_filter.mp h).2
    constructor
    · cases hc : RefModel.recordAt s a with
      | none => rw [hc] at hpred; simp at hpred
      | some r =>
        have hlen : a < s.heap.length := by
          rw [RefModel.recordAt, List.getElem?_eq_some] at hc
          exact hc.1
        rw [RefModel.recordAt, RefModel.mutateAt]
        exact List.getElem?_set_self hlen
    · exact hmem

/-- C7 witness: the amended theorem on a concrete connected store with
one record and on the concrete reference store of the counterexample. -/
theorem c7_get_witness :
    (YAMLDriver.get
        { data := [[("x", Value.num 1)]], isConnected := true, autoSave := true } []).state
      = { data := [[("x", Value.num 1)]], isConnected := true, autoSave := true } ∧
    RefModel.recordAt (RefModel.mutateAt
        { heap := [[("x", Value.num 1)]], data := [0] } 0 [("x", Value.num 2)]) 0
      = some [("x", Value.num 2)] :=
  ⟨(c7_get_amended.1
      { data := [[("x", Value.num 1)]], isConnected := true, autoSave := true } [] rfl).2.2,
    (c7_get_amended.2.2.2 YAMLDriver.matchesQuery
      { heap := [[("x", Value.num 1)]], data := [0] } [] 0 [("x", Value.num 2)]
      (by decide)).1⟩

/-- C8 counterexample: the claim asserts that after disconnect the
instance holds no records; the primary YAML driver's disconnect only
lowers the flag (after an autosave) and retains the in-memory array. -/
theorem c8_counterexample :
    (YAMLDriver.disconnect
        { data := [[("x", Value.num 1)]], isConnected := true, autoSave := false }).state.data
      = [[("x", Value.num 1)]] ∧
    (YAMLDriver.disconnect
        { data := [[("x", Value.num 1)]], isConnected := true,
          autoSave := false }).state.isConnected
      = false :=
  ⟨rfl, rfl⟩

/-- C8 (amended): disconnect returns successfully in every variant; the
primary YAML driver saves first when autoSave is on, lowers the flag and
retains the in-memory collection; the part_000 YAML variant and the
second JSON variant only lower the flag, saving and discarding nothing;
only the first JSON variant persists and then discards the in-memory
collection (it tracks no connection flag at all). -/
theorem c8_disconnect_amended :
    (∀ (s : YAMLDriver.State),
      (YAMLDriver.disconnect s).ret = Except.ok () ∧
      (YAMLDriver.disconnect s).state.isConnected = false ∧
      (YAMLDriver.disconnect s).state.data = s.data ∧
      (YAMLDriver.disconnect s).saves = (if s.autoSave then [s.data] else [])) ∧
    (∀ (s : YAMLDriver0.State),
      (YAMLDriver0.disconnect s).ret = Except.ok () ∧
      (YAMLDriver0.disconnect s).state.isConnected = false ∧
      (YAMLDriver0.disconnect s).state.data = s.data ∧
      (YAMLDriver0.disconnect s).saves = []) ∧
    (∀ (s : JSONDriver2.State),
      (JSONDriver2.disconnect s).ret = Except.ok () ∧
      (JSONDriver2.disconnect s).state.isConnected = false ∧
      (JSONDriver2.disconnect s).state.data = s.data ∧
      (JSONDriver2.disconnect s).saves = []) ∧
    (∀ (s : JSONDriver.State),
      (JSONDriver.disconnect s).ret = Except.ok () ∧
      (JSONDriver.disconnect s).state.records = [] ∧
      (JSONDriver.disconnect s).saves = [s.records]) :=
  ⟨fun _ => ⟨rfl, rfl, rfl, rfl⟩, fun _ => ⟨rfl, rfl, rfl, rfl⟩,
    fun _ => ⟨rfl, rfl, rfl, rfl⟩, fun _ => ⟨rfl, rfl, rfl⟩⟩

/-- C9: for both YAML driver variants, set on a connected store always
stores and returns a record whose `_id` is the freshly generated id —
the written `_id` property overrides any client-supplied `_id` in the
spread, so a client `_id` never survives insertion. -/
theorem c9_yaml_set_id :
    (∀ (s : YAMLDriver.State) (data : Data) (now fresh : String),
      s.isConnected = true →
      (YAMLDriver.set s data now fresh).ret
          = Except.ok (setKey (setKey (setKey data "_id" (Value.str fresh))
              "_createdAt" (Value.str now)) "_updatedAt" (Value.str now)) ∧
      lookupKey (setKey (setKey (setKey data "_id" (Value.str fresh))
          "_createdAt" (Value.str now)) "_updatedAt" (Value.str now)) "_id"
        = some (Value.str fresh) ∧
      (YAMLDriver.set s data now fresh).state.data
          = s.data ++ [setKey (setKey (setKey data "_id" (Value.str fresh))
              "_createdAt" (Value.str now)) "_updatedAt" (Value.str now)]) ∧
    (∀ (s : YAMLDriver0.State) (data : Data) (now fresh : String),
      s.isConnected = true →
      (YAMLDriver0.set s data now fresh).ret
          = Except.ok (setKey (setKey (setKey data "_id" (Value.str fresh))
              "_createdAt" (Value.str now)) "_updatedAt" (Value.str now)) ∧
      (YAMLDriver0.set s data now fresh).state.data
          = s.data ++ [setKey (setKey (setKey data "_id" (Value.str fresh))
              "_createdAt" (Value.str now)) "_updatedAt" (Value.str now)]) := by
  constructor
  · intro s data now fresh h
    refine ⟨?_, (setChain_fields data (Value.str fresh) now).1, ?_⟩ <;>
      simp [YAMLDriver.set, h]
  · intro s data now fresh h
    constructor <;> simp [YAMLDriver0.set, h]

/-- C9 witness: a connected YAML store and an input that already carries
an `_id` — the stored `_id` is the generated one, not the client's. -/
theorem c9_yaml_set_id_witness :
    lookupKey (setKey (setKey (setKey [("_id", Value.str "mine"), ("x", Value.num 1)]
        "_id" (Value.str "gen")) "_createdAt" (Value.str "t")) "_updatedAt" (Value.str "t"))
      "_id" = some (Value.str "gen") :=
  (c9_yaml_set_id.1 { data := [], isConnected := true, autoSave := true }
    [("_id", Value.str "mine"), ("x", Value.num 1)] "t" "gen" rfl).2.1

/-- C10: for both YAML driver variants, reload on a connected store
whose backing file does not exist returns successfully, writes nothing,
and leaves the whole instance state — the in-memory collection included
— exactly as it was. -/
theorem c10_reload_missing :
    (∀ (s : YAMLDriver.State), s.isConnected = true →
      (YAMLDriver.reload s none).ret = Except.ok () ∧
      (YAMLDriver.reload s none).state = s ∧
      (YAMLDriver.reload s none).saves = []) ∧
    (∀ (s : YAMLDriver0.State), s.isConnected = true →
      (YAMLDriver0.reload s none).ret = Except.ok () ∧
      (YAMLDriver0.reload s none).state = s ∧
      (YAMLDriver0.reload s none).saves = []) := by
  constructor
  · intro s h
    refine ⟨?_, ?_, ?_⟩ <;> simp [YAMLDriver.reload, h]
  · intro s h
    refine ⟨?_, ?_, ?_⟩ <;> simp [YAMLDriver0.reload, h]

/-- C10 witness: a connected YAML store with one record keeps it across
a reload against a missing file. -/
theorem c10_reload_missing_witness :
    (YAMLDriver.reload
        { data := [[("x", Value.num 1)]], isConnected := true, autoSave := true } none).state
      = { data := [[("x", Value.num 1)]], isConnected := true, autoSave := true } :=
  (c10_reload_missing.1
    { data := [[("x", Value.num 1)]], isConnected := true, autoSave := true } rfl).2.1
